import Mathlib

/-!
Verification development for the Pomodoro timer screen
(`src/app/index.tsx`): a shallow embedding of the timer/phase state
machine, the settings-save logic, the `MM:SS` formatter, the progress
ratio, and the task-store adapter, with theorems settling the stated
properties of each.
-/

set_option linter.unusedVariables false

/-- The three timer phases (`TimerTypeKey` in the source:
`"POMODORO" | "SHORT_BREAK" | "LONG_BREAK"`). -/
inductive TimerTypeKey where
  | POMODORO
  | SHORT_BREAK
  | LONG_BREAK
  deriving DecidableEq, Repr

/-- A `Record<TimerTypeKey, Nat>`: one duration (in seconds) per phase. -/
structure Durations where
  pomodoro : Nat
  shortBreak : Nat
  longBreak : Nat
  deriving DecidableEq, Repr

/-- Field lookup `durations[type]`. -/
def Durations.get (d : Durations) : TimerTypeKey → Nat
  | .POMODORO => d.pomodoro
  | .SHORT_BREAK => d.shortBreak
  | .LONG_BREAK => d.longBreak

/-- Object-spread update `{ ...prevDurations, [type]: v }`. -/
def Durations.set (d : Durations) : TimerTypeKey → Nat → Durations
  | .POMODORO, v => { d with pomodoro := v }
  | .SHORT_BREAK, v => { d with shortBreak := v }
  | .LONG_BREAK, v => { d with longBreak := v }

/-- `INITIAL_TIMER_TYPES`: defaults 25, 5 and 15 minutes in seconds. -/
def INITIAL_TIMER_TYPES : Durations :=
  { pomodoro := 25 * 60, shortBreak := 5 * 60, longBreak := 15 * 60 }

/-- The mutable timer state of `PomodoroScreen`: `timerType`,
`timerDurations`, `timeLeft`, `isActive`, `pomodoroCount`. -/
structure TimerState where
  timerType : TimerTypeKey
  timerDurations : Durations
  timeLeft : Nat
  isActive : Bool
  pomodoroCount : Nat
  deriving DecidableEq, Repr

/-- One firing of the one-second interval callback
(`setTimeLeft(timeLeft - 1)`), guarded exactly as the timer effect
guards it: the interval exists only while `isActive && timeLeft > 0`. -/
def tick (s : TimerState) : TimerState :=
  if s.isActive ∧ 0 < s.timeLeft then { s with timeLeft := s.timeLeft - 1 } else s

/-- The condition of the `else if (isActive && timeLeft === 0)` branch of
the timer effect: the state in which phase completion fires. -/
def completionPending (s : TimerState) : Prop :=
  s.isActive = true ∧ s.timeLeft = 0

instance (s : TimerState) : Decidable (completionPending s) := by
  unfold completionPending; infer_instance

/-- The phase-completion block of the timer effect (lines 259–282 of
`src/app/index.tsx`): on a completed `POMODORO`, bump `pomodoroCount`
and go to `LONG_BREAK` when the new count is a multiple of 4, else to
`SHORT_BREAK`; on a completed break, go back to `POMODORO`; in every
case load the next phase's duration and stop the timer. -/
def completePhase (s : TimerState) : TimerState :=
  if s.timerType = .POMODORO then
    let newCount := s.pomodoroCount + 1
    if newCount % 4 = 0 then
      { s with pomodoroCount := newCount, timerType := .LONG_BREAK,
               timeLeft := s.timerDurations.longBreak, isActive := false }
    else
      { s with pomodoroCount := newCount, timerType := .SHORT_BREAK,
               timeLeft := s.timerDurations.shortBreak, isActive := false }
  else
    { s with timerType := .POMODORO,
             timeLeft := s.timerDurations.pomodoro, isActive := false }

/-- `toggleTimer`: `setIsActive(!isActive)`. -/
def toggleTimer (s : TimerState) : TimerState :=
  { s with isActive := !s.isActive }

/-- `resetTimer`: stop and reload the current phase's duration. -/
def resetTimer (s : TimerState) : TimerState :=
  { s with isActive := false, timeLeft := s.timerDurations.get s.timerType }

/-- `switchTimerType(type)`: stop, switch phase, load that phase's
duration. -/
def switchTimerType (s : TimerState) (type : TimerTypeKey) : TimerState :=
  { s with isActive := false, timerType := type, timeLeft := s.timerDurations.get type }

/-- `handleDurationChange(type, durationInSeconds)`: update the duration
map; when the edited phase is current and the timer idle, also reset
`timeLeft` to the new value. -/
def handleDurationChange (s : TimerState) (type : TimerTypeKey)
    (durationInSeconds : Nat) : TimerState :=
  let s1 := { s with timerDurations := s.timerDurations.set type durationInSeconds }
  if s.timerType = type ∧ s.isActive = false then
    { s1 with timeLeft := durationInSeconds }
  else s1

/-- The spec's invariant: `remainingSeconds` never exceeds
`durations[phase]`. -/
def TimerInv (s : TimerState) : Prop :=
  s.timeLeft ≤ s.timerDurations.get s.timerType

instance (s : TimerState) : Decidable (TimerInv s) := by
  unfold TimerInv; infer_instance

/-! ### Settings save: `parseInt` and `handleSaveSettings` -/

/-- Value of a list of decimal digit characters, most significant first. -/
def digitsToNat (ds : List Char) : Nat :=
  ds.foldl (fun a c => a * 10 + (c.toNat - '0'.toNat)) 0

/-- JavaScript `parseInt(s, 10)`: skip leading whitespace, read an
optional sign and then a maximal run of decimal digits, ignoring any
trailing garbage; `none` models the `NaN` result when no digit is
found. -/
def parseIntJS (s : String) : Option Int :=
  let body : List Char → Option Nat := fun r =>
    let ds := r.takeWhile Char.isDigit
    if ds.isEmpty then none else some (digitsToNat ds)
  match s.data.dropWhile Char.isWhitespace with
  | '-' :: r => (body r).map (fun n => -(n : Int))
  | '+' :: r => (body r).map (fun n => (n : Int))
  | r => (body r).map (fun n => (n : Int))

/-- `tempTimerDurations`: the settings dialog's raw per-phase text
inputs (minutes as strings). -/
structure TempDurations where
  pomodoro : String
  shortBreak : String
  longBreak : String
  deriving DecidableEq, Repr

/-- Text-field lookup `tempTimerDurations[type]`. -/
def TempDurations.get (t : TempDurations) : TimerTypeKey → String
  | .POMODORO => t.pomodoro
  | .SHORT_BREAK => t.shortBreak
  | .LONG_BREAK => t.longBreak

/-- The committed value of one settings field in `handleSaveSettings`:
`parseInt(minutesString, 10)`, accepted (in seconds) only when it is a
number and non-negative, the phase's default otherwise. -/
def savedDuration (default : Nat) (minutesString : String) : Nat :=
  match parseIntJS minutesString with
  | some parsedMinutes => if 0 ≤ parsedMinutes then parsedMinutes.toNat * 60 else default
  | none => default

/-- `newDurationsInSeconds` as computed by the loop of
`handleSaveSettings` over the three text fields. -/
def savedDurations (temp : TempDurations) : Durations :=
  { pomodoro := savedDuration INITIAL_TIMER_TYPES.pomodoro temp.pomodoro,
    shortBreak := savedDuration INITIAL_TIMER_TYPES.shortBreak temp.shortBreak,
    longBreak := savedDuration INITIAL_TIMER_TYPES.longBreak temp.longBreak }

/-- `handleSaveSettings`: commit the parsed durations; when the timer is
idle also reload `timeLeft` from the current phase's new duration. -/
def handleSaveSettings (s : TimerState) (temp : TempDurations) : TimerState :=
  let nd := savedDurations temp
  let s1 := { s with timerDurations := nd }
  if s.isActive = false then { s1 with timeLeft := nd.get s.timerType } else s1

/-! ### Display helpers: `formatTime` and `getProgress` -/

/-- Decimal digits of `n`, least significant first, as produced by the
JavaScript `Number.prototype.toString` on a natural number; `fuel`
bounds the recursion and any `fuel > n` is enough. -/
def toDecimalAux : Nat → Nat → List Char
  | 0, _ => []
  | fuel + 1, n =>
    if n < 10 then [Nat.digitChar n]
    else Nat.digitChar (n % 10) :: toDecimalAux fuel (n / 10)

/-- `n.toString()`: the decimal rendering of a natural number. -/
def toDecimal (n : Nat) : String :=
  ⟨(toDecimalAux (n + 1) n).reverse⟩

/-- `.padStart(2, "0")`. -/
def padStart2 (s : String) : String :=
  if s.length < 2 then ⟨List.replicate (2 - s.length) '0'⟩ ++ s else s

/-- `formatTime(seconds)`: `MM:SS`, minutes `Math.floor(seconds / 60)`
and seconds `seconds % 60`, each zero-padded to two digits. -/
def formatTime (seconds : Nat) : String :=
  padStart2 (toDecimal (seconds / 60)) ++ ":" ++ padStart2 (toDecimal (seconds % 60))

/-- `getProgress()`: `(totalTime - timeLeft) / totalTime`, and `0` when
`totalTime` is `0`. -/
def getProgress (s : TimerState) : ℚ :=
  if s.timerDurations.get s.timerType = 0 then 0
  else ((s.timerDurations.get s.timerType : ℚ) - (s.timeLeft : ℚ)) /
    (s.timerDurations.get s.timerType : ℚ)

/-! ### Task store adapter -/

/-- A row of the `tasks` table / the `Task` interface. -/
structure TaskRow where
  id : Nat
  name : String
  completed : Bool
  priority : Int
  pomodoroSessions : Nat
  createdAt : String
  deriving DecidableEq, Repr

/-- The SQLite store: the `tasks` table together with its
auto-increment counter. -/
structure TaskStore where
  rows : List TaskRow
  nextId : Nat
  deriving DecidableEq, Repr

/-- The screen's task-related state: the store plus the in-memory
`tasks` array. -/
structure AppState where
  store : TaskStore
  tasks : List TaskRow
  deriving DecidableEq, Repr

/-- JavaScript `String.prototype.trim`: drop leading and trailing
whitespace. -/
def trimJS (s : String) : String :=
  ⟨(((s.data.dropWhile Char.isWhitespace).reverse.dropWhile
      Char.isWhitespace).reverse)⟩

/-- `addTask(name, priority)`: no-op when the trimmed name is empty;
otherwise `INSERT INTO tasks (name, priority)` (the store fills
`completed = 0`, `pomodoroSessions = 0`, `createdAt`, and an
auto-increment `id`), re-fetch the row by `lastInsertRowId` and append
it to the in-memory list. `createdAt` is the store's clock, passed in
as a parameter. -/
def addTask (st : AppState) (createdAt : String) (name : String)
    (priority : Int) : AppState :=
  if (trimJS name).isEmpty then st
  else
    let newTask : TaskRow :=
      { id := st.store.nextId, name := trimJS name, completed := false,
        priority := priority, pomodoroSessions := 0, createdAt := createdAt }
    { store := { rows := st.store.rows ++ [newTask], nextId := st.store.nextId + 1 },
      tasks := st.tasks ++ [newTask] }

/-- A task list ordered by `priority` descending (the order of
`listTasks`' `ORDER BY priority DESC` prefix). -/
def priorityDescSorted (l : List TaskRow) : Prop :=
  l.Chain' (fun a b => b.priority ≤ a.priority)

/-! ### Helper lemmas -/

theorem Durations.get_set (d : Durations) (t u : TimerTypeKey) (v : Nat) :
    (d.set t v).get u = if u = t then v else d.get u := by
  cases t <;> cases u <;> simp [Durations.set, Durations.get]

theorem completePhase_isActive (s : TimerState) :
    (completePhase s).isActive = false := by
  unfold completePhase
  split
  · dsimp only
    split <;> rfl
  · rfl

/-- C1: when a phase completes (running, `remainingSeconds = 0`): a
completed Focus increments `completedFocusCount` by one and selects
LongBreak exactly when the new count is divisible by 4 (ShortBreak
otherwise); a completed break leaves the count unchanged and selects
Focus; in every case the durations are unchanged, the remaining time is
the next phase's duration, and the timer is stopped. -/
theorem c1_completePhase_spec (s : TimerState)
    (hrun : s.isActive = true) (hzero : s.timeLeft = 0) :
    (s.timerType = .POMODORO →
      (completePhase s).pomodoroCount = s.pomodoroCount + 1 ∧
      (completePhase s).timerType =
        (if (s.pomodoroCount + 1) % 4 = 0 then TimerTypeKey.LONG_BREAK
         else TimerTypeKey.SHORT_BREAK)) ∧
    (s.timerType ≠ .POMODORO →
      (completePhase s).pomodoroCount = s.pomodoroCount ∧
      (completePhase s).timerType = .POMODORO) ∧
    (completePhase s).timerDurations = s.timerDurations ∧
    (completePhase s).timeLeft =
      s.timerDurations.get (completePhase s).timerType ∧
    (completePhase s).isActive = false := by
  rcases s with ⟨tt, d, tl, act, cnt⟩
  cases tt with
  | POMODORO =>
      by_cases hm : (cnt + 1) % 4 = 0 <;>
        simp [completePhase, hm, Durations.get]
  | SHORT_BREAK => simp [completePhase, Durations.get]
  | LONG_BREAK => simp [completePhase, Durations.get]

/-- C1 witness: completing a running Focus phase at zero with count 0
yields count 1 and phase ShortBreak. -/
theorem c1_completePhase_witness :
    (completePhase (TimerState.mk .POMODORO INITIAL_TIMER_TYPES 0 true 0)).pomodoroCount = 1 ∧
    (completePhase (TimerState.mk .POMODORO INITIAL_TIMER_TYPES 0 true 0)).timerType =
      .SHORT_BREAK := by
  have h :=
    c1_completePhase_spec (TimerState.mk .POMODORO INITIAL_TIMER_TYPES 0 true 0) rfl rfl
  have h1 := h.1 rfl
  exact ⟨h1.1, by simpa using h1.2⟩

/-- C4: `switchTimerType(target)` always stops the timer, sets the
phase to the target and loads the target's configured duration, and
never changes `completedFocusCount`. -/
theorem c4_switchTimerType_spec (s : TimerState) (target : TimerTypeKey) :
    (switchTimerType s target).isActive = false ∧
    (switchTimerType s target).timerType = target ∧
    (switchTimerType s target).timeLeft = s.timerDurations.get target ∧
    (switchTimerType s target).pomodoroCount = s.pomodoroCount := by
  simp [switchTimerType]

/-- C5 counterexample: the only start/pause operation in the code is
`toggleTimer`, and invoked on a running state it pauses instead of
being a no-op: the state changes. -/
theorem c5_toggle_not_noop_cex :
    (TimerState.mk .POMODORO INITIAL_TIMER_TYPES 100 true 0).isActive = true ∧
    toggleTimer (TimerState.mk .POMODORO INITIAL_TIMER_TYPES 100 true 0) ≠
      TimerState.mk .POMODORO INITIAL_TIMER_TYPES 100 true 0 := by
  decide

/-- C5 amended: `toggleTimer` negates `isRunning` (so it starts a
paused timer and pauses a running one, rather than being an idempotent
start) and leaves phase, remaining time, durations and the completed
count unchanged. -/
theorem c5_toggleTimer_spec (s : TimerState) :
    (toggleTimer s).isActive = !s.isActive ∧
    (toggleTimer s).timerType = s.timerType ∧
    (toggleTimer s).timeLeft = s.timeLeft ∧
    (toggleTimer s).timerDurations = s.timerDurations ∧
    (toggleTimer s).pomodoroCount = s.pomodoroCount := by
  simp [toggleTimer]

/-- C8 counterexample: with the current phase's duration configured to
0 and `remainingSeconds = 0`, the progress ratio is 0, not the 1.0 the
claim demands at `remainingSeconds == 0`. -/
theorem c8_getProgress_cex :
    (TimerState.mk .POMODORO (Durations.mk 0 300 900) 0 false 0).timeLeft = 0 ∧
    getProgress (TimerState.mk .POMODORO (Durations.mk 0 300 900) 0 false 0) = 0 ∧
    getProgress (TimerState.mk .POMODORO (Durations.mk 0 300 900) 0 false 0) ≠ 1 := by
  refine ⟨rfl, ?_, ?_⟩ <;> simp [getProgress, Durations.get]

/-- C8 amended: the progress ratio is
`(durations[phase] - remainingSeconds) / durations[phase]`, is 0 when
`durations[phase] = 0`, is 0 when `remainingSeconds = durations[phase]`,
and is 1 when `remainingSeconds = 0` provided `durations[phase] ≠ 0`. -/
theorem c8_getProgress_spec (s : TimerState) :
    (s.timerDurations.get s.timerType = 0 → getProgress s = 0) ∧
    (s.timerDurations.get s.timerType ≠ 0 →
      getProgress s =
        ((s.timerDurations.get s.timerType : ℚ) - (s.timeLeft : ℚ)) /
          (s.timerDurations.get s.timerType : ℚ)) ∧
    (s.timeLeft = s.timerDurations.get s.timerType → getProgress s = 0) ∧
    (s.timeLeft = 0 → s.timerDurations.get s.timerType ≠ 0 → getProgress s = 1) := by
  refine ⟨fun h => by simp [getProgress, h], fun h => by simp [getProgress, h], ?_, ?_⟩
  · intro h
    unfold getProgress
    split
    · rfl
    · rw [h]
      simp
  · intro h hd
    unfold getProgress
    split
    · exact absurd (by assumption) hd
    · rw [h]
      rw [Nat.cast_zero, sub_zero, div_self (by exact_mod_cast hd)]

/-- C8 witness: on the default initial state with `remainingSeconds = 0`
the ratio is 1, and on a freshly loaded phase it is 0. -/
theorem c8_getProgress_witness :
    getProgress (TimerState.mk .POMODORO INITIAL_TIMER_TYPES 0 false 0) = 1 ∧
    getProgress (TimerState.mk .POMODORO INITIAL_TIMER_TYPES 1500 false 0) = 0 := by
  constructor
  · exact (c8_getProgress_spec
      (TimerState.mk .POMODORO INITIAL_TIMER_TYPES 0 false 0)).2.2.2 rfl (by decide)
  · exact (c8_getProgress_spec
      (TimerState.mk .POMODORO INITIAL_TIMER_TYPES 1500 false 0)).2.2.1 (by decide)

/-- C2 counterexample: saving a smaller Focus duration while the timer
is running keeps `remainingSeconds` at its old value, which then
exceeds `durations[phase]`: the invariant is not preserved by a
settings save while running. -/
theorem c2_inv_broken_by_running_save_cex :
    TimerInv (TimerState.mk .POMODORO INITIAL_TIMER_TYPES 1500 true 0) ∧
    (TimerState.mk .POMODORO INITIAL_TIMER_TYPES 1500 true 0).isActive = true ∧
    ¬ TimerInv (handleSaveSettings
        (TimerState.mk .POMODORO INITIAL_TIMER_TYPES 1500 true 0)
        (TempDurations.mk "1" "5" "15")) := by
  decide

/-- C2 amended: the invariant `remainingSeconds ≤ durations[phase]` is
preserved by start/pause (`toggleTimer`), `resetTimer`,
`switchTimerType`, `tick` and phase completion, and by a settings save
or a duration change performed while the timer is NOT running; a save
of a smaller current-phase duration while running violates it. -/
theorem c2_timerInv_preserved (s : TimerState) (h : TimerInv s) :
    TimerInv (toggleTimer s) ∧
    TimerInv (resetTimer s) ∧
    (∀ target, TimerInv (switchTimerType s target)) ∧
    TimerInv (tick s) ∧
    TimerInv (completePhase s) ∧
    (s.isActive = false → ∀ temp, TimerInv (handleSaveSettings s temp)) ∧
    (s.isActive = false → ∀ type d, TimerInv (handleDurationChange s type d)) := by
  unfold TimerInv at h
  refine ⟨?_, ?_, ?_, ?_, ?_, ?_, ?_⟩
  · simpa [TimerInv, toggleTimer] using h
  · simp [TimerInv, resetTimer]
  · intro target
    simp [TimerInv, switchTimerType]
  · unfold TimerInv tick
    split
    · simp only
      omega
    · exact h
  · rcases s with ⟨tt, d, tl, act, cnt⟩
    cases tt with
    | POMODORO =>
        by_cases hm : (cnt + 1) % 4 = 0 <;>
          simp [TimerInv, completePhase, hm, Durations.get]
    | SHORT_BREAK => simp [TimerInv, completePhase, Durations.get]
    | LONG_BREAK => simp [TimerInv, completePhase, Durations.get]
  · intro hidle temp
    simp [TimerInv, handleSaveSettings, hidle]
  · intro hidle type d
    unfold TimerInv handleDurationChange
    split
    · next hc =>
        simp [Durations.get_set, hc.1]
    · next hc =>
        have hne : s.timerType ≠ type := by
          intro he
          exact hc ⟨he, hidle⟩
        simpa [Durations.get_set, hne] using h

/-- C2 witness: the invariant holds after a tick and after an idle-time
settings save from the default initial state. -/
theorem c2_timerInv_preserved_witness :
    TimerInv (tick (TimerState.mk .POMODORO INITIAL_TIMER_TYPES 1500 true 0)) ∧
    TimerInv (handleSaveSettings
      (TimerState.mk .POMODORO INITIAL_TIMER_TYPES 1500 false 0)
      (TempDurations.mk "1" "5" "15")) := by
  constructor
  · exact (c2_timerInv_preserved
      (TimerState.mk .POMODORO INITIAL_TIMER_TYPES 1500 true 0) (by decide)).2.2.2.1
  · exact (c2_timerInv_preserved
      (TimerState.mk .POMODORO INITIAL_TIMER_TYPES 1500 false 0)
        (by decide)).2.2.2.2.2.1 rfl (TempDurations.mk "1" "5" "15")

/-- C6: at settings save each field is committed independently: a field
whose text does not parse to a number falls back to that phase's
default, a parsed negative value falls back to the default, and a
parsed non-negative value of `m` minutes commits `m * 60` seconds; the
Focus default is 1500 s, and the save always commits the computed
durations to the state. -/
theorem c6_saveSettings_parse_spec (temp : TempDurations) (t : TimerTypeKey) :
    (parseIntJS (temp.get t) = none →
      (savedDurations temp).get t = INITIAL_TIMER_TYPES.get t) ∧
    (∀ m : Int, parseIntJS (temp.get t) = some m → m < 0 →
      (savedDurations temp).get t = INITIAL_TIMER_TYPES.get t) ∧
    (∀ m : Int, parseIntJS (temp.get t) = some m → 0 ≤ m →
      (savedDurations temp).get t = m.toNat * 60) ∧
    INITIAL_TIMER_TYPES.get .POMODORO = 1500 ∧
    (∀ s : TimerState,
      (handleSaveSettings s temp).timerDurations = savedDurations temp) := by
  refine ⟨?_, ?_, ?_, rfl, ?_⟩
  · intro hp
    cases t <;>
      simp_all [savedDurations, savedDuration, Durations.get, TempDurations.get]
  · intro m hp hneg
    cases t <;>
      simp_all [savedDurations, savedDuration, Durations.get, TempDurations.get,
        not_le.mpr hneg]
  · intro m hp hpos
    cases t <;>
      simp_all [savedDurations, savedDuration, Durations.get, TempDurations.get]
  · intro s
    unfold handleSaveSettings
    split <;> rfl

/-- C6 witness: saving with Focus text `"abc"`, short-break text `"-5"`
and long-break text `"10"` commits 1500 s, 300 s and 600 s. -/
theorem c6_saveSettings_parse_witness :
    (savedDurations (TempDurations.mk "abc" "-5" "10")).get .POMODORO = 1500 ∧
    (savedDurations (TempDurations.mk "abc" "-5" "10")).get .SHORT_BREAK = 300 ∧
    (savedDurations (TempDurations.mk "abc" "-5" "10")).get .LONG_BREAK = 600 := by
  refine ⟨?_, ?_, ?_⟩
  · exact (c6_saveSettings_parse_spec (TempDurations.mk "abc" "-5" "10") .POMODORO).1
      (by decide)
  · exact (c6_saveSettings_parse_spec (TempDurations.mk "abc" "-5" "10") .SHORT_BREAK).2.1
      (-5) (by decide) (by decide)
  · exact (c6_saveSettings_parse_spec (TempDurations.mk "abc" "-5" "10") .LONG_BREAK).2.2.1
      10 (by decide) (by decide)

/-- C7: `addTask` is a no-op (no store write, no in-memory change) when
the trimmed name is empty; otherwise it inserts a row with the trimmed
name, the given priority, `completed = false`, `pomodoroSessions = 0`,
and appends that same row to the in-memory list. -/
theorem c7_addTask_spec (st : AppState) (createdAt name : String) (priority : Int) :
    ((trimJS name).isEmpty = true → addTask st createdAt name priority = st) ∧
    ((trimJS name).isEmpty = false →
      (addTask st createdAt name priority).store.rows =
        st.store.rows ++
          [TaskRow.mk st.store.nextId (trimJS name) false priority 0 createdAt] ∧
      (addTask st createdAt name priority).tasks =
        st.tasks ++
          [TaskRow.mk st.store.nextId (trimJS name) false priority 0 createdAt]) := by
  constructor
  · intro h
    simp [addTask, h]
  · intro h
    simp [addTask, h]

/-- C7 witness: `addTask "   "` leaves the state untouched and
`addTask " a "` appends the trimmed record. -/
theorem c7_addTask_witness :
    addTask (AppState.mk (TaskStore.mk [] 1) []) "2025-01-01" "   " 1 =
      AppState.mk (TaskStore.mk [] 1) [] ∧
    (addTask (AppState.mk (TaskStore.mk [] 1) []) "2025-01-01" " a " 2).tasks =
      [TaskRow.mk 1 "a" false 2 0 "2025-01-01"] := by
  constructor
  · exact (c7_addTask_spec (AppState.mk (TaskStore.mk [] 1) []) "2025-01-01" "   " 1).1
      (by decide)
  · have h := ((c7_addTask_spec (AppState.mk (TaskStore.mk [] 1) []) "2025-01-01"
      " a " 2).2 (by decide)).2
    exact h.trans (by decide)

/-- C10: a successful `addTask` appends the new record as the last
element of the in-memory list regardless of priority, so adding a task
of strictly higher priority than every existing one leaves the
in-memory view not sorted by priority descending. -/
theorem c10_addTask_append_unsorted (st : AppState) (createdAt name : String)
    (priority : Int) (hname : (trimJS name).isEmpty = false) :
    (addTask st createdAt name priority).tasks =
      st.tasks ++
        [TaskRow.mk st.store.nextId (trimJS name) false priority 0 createdAt] ∧
    (st.tasks ≠ [] → (∀ t ∈ st.tasks, t.priority < priority) →
      ¬ priorityDescSorted (addTask st createdAt name priority).tasks) := by
  have happ : (addTask st createdAt name priority).tasks =
      st.tasks ++
        [TaskRow.mk st.store.nextId (trimJS name) false priority 0 createdAt] := by
    simp [addTask, hname]
  refine ⟨happ, ?_⟩
  intro hne hlt hsorted
  rw [happ] at hsorted
  unfold priorityDescSorted at hsorted
  rw [List.chain'_append] at hsorted
  have hlast := hsorted.2.2 (st.tasks.getLast hne)
    (by simp [List.getLast?_eq_getLast st.tasks hne])
    (TaskRow.mk st.store.nextId (trimJS name) false priority 0 createdAt) (by simp)
  have hmem := List.getLast_mem hne
  have := hlt _ hmem
  simp only at hlast
  omega

/-- C10 witness: appending a priority-5 task after a priority-1 task
leaves the in-memory list unsorted by priority descending. -/
theorem c10_addTask_append_unsorted_witness :
    ¬ priorityDescSorted (addTask
      (AppState.mk (TaskStore.mk [TaskRow.mk 1 "old" false 1 0 "t0"] 2)
        [TaskRow.mk 1 "old" false 1 0 "t0"])
      "t1" "new" 5).tasks := by
  exact (c10_addTask_append_unsorted
    (AppState.mk (TaskStore.mk [TaskRow.mk 1 "old" false 1 0 "t0"] 2)
      [TaskRow.mk 1 "old" false 1 0 "t0"])
    "t1" "new" 5 (by decide)).2 (by decide) (by decide)

theorem tick_iterate : ∀ (k : Nat) (s : TimerState), s.isActive = true →
    k ≤ s.timeLeft → tick^[k] s = { s with timeLeft := s.timeLeft - k } := by
  intro k
  induction k with
  | zero => intro s h hk; simp
  | succ n ih =>
    intro s h hk
    rw [Function.iterate_succ_apply]
    have ht : tick s = { s with timeLeft := s.timeLeft - 1 } := by
      unfold tick
      rw [if_pos ⟨h, by omega⟩]
    rw [ht, ih { s with timeLeft := s.timeLeft - 1 } h (by simp; omega)]
    have hsub : s.timeLeft - 1 - n = s.timeLeft - (n + 1) := by omega
    simp [hsub]

/-- C3: from a state of the current phase with configured duration
`D > 0`, `remainingSeconds = D` and the timer running, the completion
condition is false after every `k < D` ticks, after exactly `D` ticks
the remaining time is 0 and the completion condition holds, and once
the completion transition runs the timer is stopped, the condition is
false again and further ticks are no-ops — so completion fires exactly
once, on the `D`-th tick. -/
theorem c3_countdown_completes_once (D : Nat) (s : TimerState)
    (hD : 0 < D) (hdur : s.timerDurations.get s.timerType = D)
    (hfresh : s.timeLeft = D) (hrun : s.isActive = true) :
    (∀ k, k < D → ¬ completionPending (tick^[k] s)) ∧
    (tick^[D] s).timeLeft = 0 ∧
    completionPending (tick^[D] s) ∧
    ¬ completionPending (completePhase (tick^[D] s)) ∧
    tick (completePhase (tick^[D] s)) = completePhase (tick^[D] s) := by
  have hit : ∀ k, k ≤ D → tick^[k] s = { s with timeLeft := s.timeLeft - k } :=
    fun k hk => tick_iterate k s hrun (by omega)
  refine ⟨?_, ?_, ?_, ?_, ?_⟩
  · intro k hk
    rw [hit k (by omega)]
    unfold completionPending
    simp
    omega
  · rw [hit D le_rfl]
    simp
    omega
  · rw [hit D le_rfl]
    unfold completionPending
    simp [hrun]
    omega
  · unfold completionPending
    simp [completePhase_isActive]
  · unfold tick
    rw [if_neg]
    simp [completePhase_isActive]

/-- C3 witness: with duration 2, the completion condition is false
after one tick and true with remaining time 0 after two ticks. -/
theorem c3_countdown_witness :
    ¬ completionPending
      (tick^[1] (TimerState.mk .POMODORO (Durations.mk 2 300 900) 2 true 0)) ∧
    (tick^[2] (TimerState.mk .POMODORO (Durations.mk 2 300 900) 2 true 0)).timeLeft = 0 ∧
    completionPending
      (tick^[2] (TimerState.mk .POMODORO (Durations.mk 2 300 900) 2 true 0)) := by
  have h := c3_countdown_completes_once 2
    (TimerState.mk .POMODORO (Durations.mk 2 300 900) 2 true 0)
    (by decide) (by decide) rfl rfl
  exact ⟨h.1 1 (by decide), h.2.1, h.2.2.1⟩

theorem toDecimalAux_small (fuel n : Nat) (hf : n < fuel) (h10 : n < 10) :
    toDecimalAux fuel n = [Nat.digitChar n] := by
  cases fuel with
  | zero => omega
  | succ f => simp [toDecimalAux, h10]

theorem toDecimalAux_length_pos (fuel n : Nat) (hf : n < fuel) :
    1 ≤ (toDecimalAux fuel n).length := by
  cases fuel with
  | zero => omega
  | succ f =>
    unfold toDecimalAux
    split <;> simp

theorem toDecimalAux_length_ge_two (fuel n : Nat) (hf : n < fuel) (h10 : 10 ≤ n) :
    2 ≤ (toDecimalAux fuel n).length := by
  cases fuel with
  | zero => omega
  | succ f =>
    unfold toDecimalAux
    rw [if_neg (by omega)]
    have h2 := toDecimalAux_length_pos f (n / 10) (by omega)
    simp
    omega

theorem toDecimalAux_length_le_two (fuel n : Nat) (hf : n < fuel) (h100 : n < 100) :
    (toDecimalAux fuel n).length ≤ 2 := by
  cases fuel with
  | zero => omega
  | succ f =>
    unfold toDecimalAux
    split
    · simp
    · rw [toDecimalAux_small f (n / 10) (by omega) (by omega)]
      simp

theorem toDecimalAux_length_ge_three (fuel n : Nat) (hf : n < fuel) (h100 : 100 ≤ n) :
    3 ≤ (toDecimalAux fuel n).length := by
  cases fuel with
  | zero => omega
  | succ f =>
    unfold toDecimalAux
    rw [if_neg (by omega)]
    have h2 := toDecimalAux_length_ge_two f (n / 10) (by omega) (by omega)
    simp
    omega

theorem toDecimal_length (n : Nat) :
    (toDecimal n).length = (toDecimalAux (n + 1) n).length := by
  simp [toDecimal, String.length]

theorem padStart2_length (s : String) : (padStart2 s).length = max 2 s.length := by
  unfold padStart2
  split
  · next h =>
      rw [String.length_append]
      simp only [String.length]
      simp
      omega
  · next h => omega

/-- C9 counterexample: at 6000 remaining seconds (100 minutes, a
duration of at least 60 minutes) the display is `"100:00"`: the minute
field has three digits, not exactly two. -/
theorem c9_formatTime_three_digits_cex :
    60 * 60 ≤ 6000 ∧
    formatTime 6000 = "100:00" ∧
    (padStart2 (toDecimal (6000 / 60))).length ≠ 2 := by
  refine ⟨by omega, ?_, ?_⟩ <;> decide

/-- C9 amended: the display is `floor(s/60)` and `s mod 60` each
zero-padded to a minimum of two digits and joined by `":"`; the seconds
field always has exactly two digits, the minute field at least two —
exactly two when the minute count is below 100 and three or more from
100 minutes up (plain integer division, not clamped or truncated). -/
theorem c9_formatTime_spec (s : Nat) :
    formatTime s =
      padStart2 (toDecimal (s / 60)) ++ ":" ++ padStart2 (toDecimal (s % 60)) ∧
    (padStart2 (toDecimal (s % 60))).length = 2 ∧
    2 ≤ (padStart2 (toDecimal (s / 60))).length ∧
    (s / 60 < 100 → (padStart2 (toDecimal (s / 60))).length = 2) ∧
    (100 ≤ s / 60 → 3 ≤ (padStart2 (toDecimal (s / 60))).length) := by
  refine ⟨rfl, ?_, ?_, ?_, ?_⟩
  · rw [padStart2_length, toDecimal_length]
    have := toDecimalAux_length_le_two (s % 60 + 1) (s % 60) (by omega) (by omega)
    omega
  · rw [padStart2_length]
    omega
  · intro h
    rw [padStart2_length, toDecimal_length]
    have := toDecimalAux_length_le_two (s / 60 + 1) (s / 60) (by omega) h
    omega
  · intro h
    rw [padStart2_length, toDecimal_length]
    have := toDecimalAux_length_ge_three (s / 60 + 1) (s / 60) (by omega) h
    omega

/-- C9 witness: at 90 s the minute field has exactly two digits; at
6001 s (100 minutes) it has at least three. -/
theorem c9_formatTime_witness :
    formatTime 90 =
      padStart2 (toDecimal (90 / 60)) ++ ":" ++ padStart2 (toDecimal (90 % 60)) ∧
    (padStart2 (toDecimal (90 / 60))).length = 2 ∧
    3 ≤ (padStart2 (toDecimal (6001 / 60))).length := by
  exact ⟨(c9_formatTime_spec 90).1, (c9_formatTime_spec 90).2.2.2.1 (by decide),
    (c9_formatTime_spec 6001).2.2.2.2 (by decide)⟩
